import Mathlib

/-!
# Tesira2MQTT — shallow embedding and verification

This file embeds the protocol-client core of the Tesira2MQTT bridge
(`src/tesira.py`, `src/telnet.py`, `src/models/__init__.py`) into Lean and
proves properties of the embedded code.

Conventions of the embedding:

* Python strings are Lean `String`s; `str.strip()` is `pyStrip`,
  `"pat" in s` is `strContains s "pat"`, `s.split(sep)` is `pySplit s sep`,
  `s.startswith(p)` is `strStartsWith s p`, and the slice `s[a:-b]` is
  `pyDropRight (pyDrop s a) b`.
* Python exceptions are explicit: a stateful method returns an
  `Except CError α` paired with the state it may have mutated before the
  raise, mirroring the fact that Python mutations performed before an
  exception persist.
* The two telnet sessions are `Transport` values: a list of incoming lines
  (`stream`), a list of written commands (`writes`), and an open/closed flag.
  `telnetReadline` on an exhausted stream is the model of a read timeout.
* `while` loops are modelled with an explicit fuel argument; callers pass
  `stream.length + 1` so that the fuel can never run out before the stream
  does (one line is consumed per iteration), making the fuel-exhaustion
  branch unreachable and the model faithful to the unbounded Python loop.
* Calls into the pydantic library (`TypeAdapter(...).validate_python`) are
  modelled by `typeAdapterValidate`, following pydantic's lax coercion rules
  for `bool` (string truth values) and `float` (decimal literals).
-/

deriving instance DecidableEq for Except

/-!
### Python string primitives

The built-in `String` operations of this Lean version (`splitOn`,
`startsWith`, `trim`, `drop`, …) are implemented by well-founded recursion
over byte positions and do not reduce inside the kernel, so the Python
string operations are re-implemented here by structural recursion over
`String.data`; each definition states which Python operation it embeds. -/

/-- `l` with its last `n` elements removed. -/
def listDropRight (l : List Char) (n : Nat) : List Char :=
  (l.reverse.drop n).reverse

/-- Python's slice `s[a:]` (also `s[a:-b]` composed with `pyDropRight`). -/
def pyDrop (s : String) (n : Nat) : String := ⟨s.data.drop n⟩

/-- Python's slice `s[:-n]`. -/
def pyDropRight (s : String) (n : Nat) : String := ⟨listDropRight s.data n⟩

/-- Python's `str.strip()`: leading and trailing whitespace removed. -/
def pyStrip (s : String) : String :=
  ⟨((s.data.dropWhile Char.isWhitespace).reverse.dropWhile Char.isWhitespace).reverse⟩

/-- Python's `str.startswith(pre)`. -/
def strStartsWith (s pre : String) : Bool := pre.data.isPrefixOf s.data

/-- Substring search: does `p` occur in `s`? -/
def listContainsSub : List Char → List Char → Bool
  | s, p =>
    if p.isPrefixOf s then true
    else
      match s with
      | [] => false
      | _ :: t => listContainsSub t p

/-- Python's substring containment `pat in s`. -/
def strContains (s pat : String) : Bool := listContainsSub s.data pat.data

/-- `str.split(sep)` on character lists, with explicit fuel (callers pass
`s.length + 1`, which the consumption of at least one character per emitted
chunk can never exhaust): every occurrence of `sep` separates chunks and
empty chunks are kept, as in Python. -/
def splitOnListAux : Nat → List Char → List Char → List Char → List (List Char)
  | _, [], _, acc => [acc.reverse]
  | 0, s, _, acc => [acc.reverse ++ s]
  | fuel + 1, c :: rest, sep, acc =>
    if sep.isPrefixOf (c :: rest) then
      acc.reverse :: splitOnListAux fuel ((c :: rest).drop sep.length) sep []
    else splitOnListAux fuel rest sep (c :: acc)

/-- Python's `s.split(sep)` for a nonempty separator. -/
def pySplit (s sep : String) : List String :=
  (splitOnListAux (s.data.length + 1) s.data sep.data []).map (fun l => ⟨l⟩)

/-- Python's `str.lower()`. -/
def pyLower (s : String) : String := ⟨s.data.map Char.toLower⟩

/-- The Tesira error taxonomy (module `errors` of the repository, absent from
`src/`). Modelled from the spec: §7 names ConnectionError, TimeoutError,
ResponseError and LookupError; `clientError` is the `ClientError` raised by
`update_state_and_command` for unknown subscription identifiers, which §7
classifies as the LookupError kind.  `keyError`, `indexError` and
`validationError` model the built-in Python exceptions (`KeyError`,
`IndexError`, pydantic `ValidationError`) that the source can raise. -/
inductive CError
  | connectionError (msg : String)
  | timeoutError
  | responseError (msg : String)
  | clientError (msg : String)
  | keyError (key : String)
  | indexError
  | validationError (raw : String)
deriving Repr, DecidableEq

/-- An exact-decimal model of a Python float value:
`mantissa / 10 ^ exponent`, kept in the canonical form produced by
`mkPyFloat` (no trailing decimal zeros), so that structural equality
coincides with numeric equality for all values the source manipulates.
Rationals are avoided only because their normalisation (`Nat.gcd`) does not
reduce inside the kernel. -/
structure PyFloat where
  mantissa : Int
  exponent : Nat
deriving Repr, DecidableEq

/-- Canonicalisation loop for `mkPyFloat` (fuel-structural; the fuel is the
exponent, which bounds the number of removable trailing zeros). -/
def normPyFloatAux : Nat → Int → Nat → PyFloat
  | 0, m, e => ⟨m, e⟩
  | fuel + 1, m, e =>
    if e = 0 then ⟨m, e⟩
    else if m % 10 = 0 then normPyFloatAux fuel (m / 10) (e - 1) else ⟨m, e⟩

/-- The canonical `PyFloat` of value `m / 10 ^ e`. -/
def mkPyFloat (m : Int) (e : Nat) : PyFloat := normPyFloatAux e m e

/-- A runtime attribute value: the result of a pydantic coercion to the
stored `variable_type` (`"bool"`, `"float"` or `"str"`). -/
inductive TValue
  | bool (b : Bool)
  | float (q : PyFloat)
  | str (s : String)
deriving Repr, DecidableEq

/-- Models pydantic's lax coercion of a string to `bool`
(`pydantic.TypeAdapter(bool).validate_python`): case-insensitive string
truth values. -/
def pydanticBool (s : String) : Option Bool :=
  let t := pyLower s
  if t = "true" ∨ t = "t" ∨ t = "yes" ∨ t = "y" ∨ t = "on" ∨ t = "1" then some true
  else if t = "false" ∨ t = "f" ∨ t = "no" ∨ t = "n" ∨ t = "off" ∨ t = "0" then some false
  else none

/-- Value of a nonempty list of decimal digit characters. -/
def digitsToNat? (cs : List Char) : Option Nat :=
  if cs.isEmpty then none
  else cs.foldl (fun acc c =>
    match acc with
    | none => none
    | some n => if c.isDigit then some (n * 10 + (c.toNat - 48)) else none) (some 0)

/-- Models pydantic's lax coercion of a string to `float`
(`pydantic.TypeAdapter(float).validate_python`) for plain decimal literals:
an optional sign, an integer part and an optional fractional part (no
exponent notation, infinities or NaN, which the source never receives). -/
def pydanticFloat (s : String) : Option PyFloat :=
  let (sign, body) : Int × List Char :=
    match s.data with
    | '-' :: rest => (-1, rest)
    | '+' :: rest => (1, rest)
    | l => (1, l)
  match splitOnListAux (body.length + 1) body ['.'] [] with
  | [ip] => (digitsToNat? ip).map (fun n => mkPyFloat (sign * n) 0)
  | [ip, fp] =>
    if ip.isEmpty ∧ fp.isEmpty then none
    else
      match (if ip.isEmpty then some 0 else digitsToNat? ip),
            (if fp.isEmpty then some 0 else digitsToNat? fp) with
      | some n, some f =>
        some (mkPyFloat (sign * ((n : Int) * (10 : Int) ^ fp.length + (f : Int))) fp.length)
      | _, _ => none
  | _ => none

/-- Models `TypeAdapter(variable_type).validate_python(raw)` for the three
`variable_type` strings the source uses. -/
def typeAdapterValidate (variable_type : String) (raw : String) : Option TValue :=
  if variable_type = "bool" then (pydanticBool raw).map .bool
  else if variable_type = "float" then (pydanticFloat raw).map .float
  else some (.str raw)

/-! ## Line Transport — `src/telnet.py` -/

/-- The `telnetlib3` writer as seen by `BiampTesiraTelnetConnection`: the only
observation the source makes of it is `is_closing()`. -/
structure TelnetWriter where
  is_closing : Bool
deriving Repr, DecidableEq

/-- `BiampTesiraTelnetConnection` (src/telnet.py). The reader is opaque to
the closed-handle claims, so it is modelled as `Option Unit`; incoming data
is supplied per call as a list of raw lines. -/
structure BiampTesiraTelnetConnection where
  reader : Option Unit
  writer : Option TelnetWriter
  identifier : String
deriving Repr, DecidableEq

namespace BiampTesiraTelnetConnection

/-- `close` (telnet.py:27-31): if the writer exists and is not already
closing, close it and null the field; otherwise do nothing. -/
def close (c : BiampTesiraTelnetConnection) : BiampTesiraTelnetConnection :=
  match c.writer with
  | some w => if ¬ w.is_closing then { c with writer := none } else c
  | none => c

/-- `closed` (telnet.py:33-36). -/
def closed (c : BiampTesiraTelnetConnection) : Bool :=
  match c.writer with
  | none => true
  | some w => w.is_closing

/-- `write` (telnet.py:38-59): raises `ClientConnectionError` when the writer
is absent or closing; otherwise the command is framed and sent. -/
def write (c : BiampTesiraTelnetConnection) (command : String) : Except CError String :=
  match c.writer with
  | none => .error (.connectionError "Client not connected.")
  | some w =>
    if w.is_closing then .error (.connectionError "Client not connected.")
    else .ok (command ++ "\r\n")

/-- Strips embedded NUL bytes, modelling `data.replace("\x00", "")`. -/
def removeNuls (s : String) : String :=
  ⟨s.data.filter (fun c => c ≠ Char.ofNat 0)⟩

/-- `readline` (telnet.py:90-115): raises `ClientConnectionError` when the
reader is absent or the handle is closed; a missing line is the model of the
read timeout (`ClientTimeoutError`); otherwise the line is returned with NUL
bytes removed and whitespace stripped. -/
def readline (c : BiampTesiraTelnetConnection) (stream : List String) :
    Except CError (String × List String) :=
  if c.reader.isNone || c.closed then .error (.connectionError "Client not connected.")
  else
    match stream with
    | [] => .error .timeoutError
    | l :: rest => .ok (pyStrip (removeNuls l), rest)

/-- `readuntil` (telnet.py:61-88): same connection checks as `readline`; the
chunk up to the separator is modelled as the head of the stream, returned
with NUL bytes removed (no trimming, matching the source). -/
def readuntil (c : BiampTesiraTelnetConnection) (separator : String) (stream : List String) :
    Except CError (String × List String) :=
  if c.reader.isNone || c.closed then .error (.connectionError "Client not connected.")
  else
    match stream with
    | [] => .error .timeoutError
    | l :: rest => .ok (removeNuls (l ++ separator), rest)

end BiampTesiraTelnetConnection

/-! ## Configuration data model — `src/models/__init__.py` -/

/-- `Subscription` (models/__init__.py:27-53).  The `attribute` field is
declared `Literal["mute", "level"]` in the source; it is embedded as a
`String` whose pydantic `Literal` validation is `validAttribute`, so that the
typing discipline is a proved property rather than a modelling assumption.
The field is named `attr` because `attribute` is a Lean keyword. -/
structure Subscription where
  instance_tag : String
  attr : String
  index : Int
  name : String
  device_name : String
deriving Repr, DecidableEq

namespace Subscription

/-- Models the pydantic validation of `attribute: Literal["mute", "level"]`:
a configured subscription passes validation exactly when its attribute is one
of the two literals. -/
def validAttribute (s : Subscription) : Bool :=
  s.attr == "mute" || s.attr == "level"

/-- `Subscription.__key` (models/__init__.py:36-43): the five-field tuple
used by `__hash__` and `__eq__`. -/
def key (s : Subscription) : String × String × Int × String × String :=
  (s.instance_tag, s.attr, s.index, s.name, s.device_name)

end Subscription

/-- Models the construction of `Config.subscriptions : set[Subscription]` by
pydantic: elements are deduplicated by `Subscription.__eq__`/`__hash__`,
i.e. by the five-field `key`; the first occurrence is kept and nothing else
is rejected. -/
def configDedup (subs : List Subscription) : List Subscription :=
  subs.foldl (fun acc s => if acc.any (fun s2 => s2.key = s.key) then acc else acc ++ [s]) []

/-! ## Protocol Client state — `src/tesira.py` -/

/-- One value of the `self._subscriptions` dict built in
`BiampTesiraConnection.subscribe` (tesira.py:171-183).  `min_level` and
`max_level` are present only for `level` subscriptions (`**other_items`).
The field `attr` models the `"attribute"` dict entry. -/
structure Entry where
  instance_tag : String
  attr : String
  index : Int
  state : TValue
  variable_type : String
  device_id : String
  unique_id : String
  name : String
  device_name : String
  identifier : String
  min_level : Option PyFloat
  max_level : Option PyFloat
deriving Repr, DecidableEq

/-- The mutable state of a `BiampTesiraConnection`: the subscription table
(`self._subscriptions`, an insertion-ordered dict modelled as an association
list with unique keys), the cached serial number, and the trace of records
forwarded to the State Publisher (`self._mqtt.publish_state` calls, in
order). -/
structure CState where
  subscriptions : List (String × Entry)
  serial : String
  published : List (String × Entry)
deriving Repr, DecidableEq

/-- Python dict lookup `d.get(k)` / `d[k]` on the subscription table. -/
def lookupSub : List (String × Entry) → String → Option Entry
  | [], _ => none
  | (k, e) :: rest, key => if k = key then some e else lookupSub rest key

/-- Python dict assignment `d[k] = v`: replaces the first binding of `k`,
appends a new binding otherwise (insertion order). -/
def updateSub : List (String × Entry) → String → Entry → List (String × Entry)
  | [], key, v => [(key, v)]
  | (k, e) :: rest, key, v =>
    if k = key then (key, v) :: rest else (k, e) :: updateSub rest key v

/-- One telnet session of the protocol client: its open flag, the lines still
to be read, and the commands written so far. -/
structure Transport where
  isOpen : Bool
  stream : List String
  writes : List String
deriving Repr, DecidableEq

/-- `BiampTesiraTelnetConnection.write` at the protocol-client level: records
the outgoing command; raises `ClientConnectionError` on a closed handle. -/
def telnetWrite (t : Transport) (command : String) : Except CError Unit × Transport :=
  if ¬ t.isOpen then (.error (.connectionError "Client not connected."), t)
  else (.ok (), { t with writes := t.writes ++ [command] })

/-- `BiampTesiraTelnetConnection.readline` at the protocol-client level:
pops the next incoming line (NUL-stripped and trimmed, as in
telnet.py:109); an empty stream is the model of the read timeout. -/
def telnetReadline (t : Transport) : Except CError String × Transport :=
  if ¬ t.isOpen then (.error (.connectionError "Client not connected."), t)
  else
    match t.stream with
    | [] => (.error .timeoutError, t)
    | l :: rest => (.ok (pyStrip (BiampTesiraTelnetConnection.removeNuls l)),
                    { t with stream := rest })

/-- `BiampTesiraConnection._write` (tesira.py:315-327): checks the handle,
writes the command, reads one line; if the echoed command text occurs in that
line, reads and returns one more line instead. -/
def writeAndRead (t : Transport) (command : String) : Except CError String × Transport :=
  if ¬ t.isOpen then (.error (.connectionError "Client not connected."), t)
  else
    match telnetWrite t command with
    | (.error e, t1) => (.error e, t1)
    | (.ok _, t1) =>
      match telnetReadline t1 with
      | (.error e, t2) => (.error e, t2)
      | (.ok response, t2) =>
        if ¬ strContains response command then (.ok response, t2)
        else telnetReadline t2

/-! ## Push-notification handling — `BiampTesiraConnection.process_tesira_response` -/

/-- The fixed prefix marking a device push notification. -/
def pushMarker : String := "! \"publishToken\":"

/-- The identifier extraction `response.split(" ")[1].split(":")[1][1:-1]`
of tesira.py:291-292, with `none` for the `IndexError` cases. -/
def extractPushKey (response : String) : Option String :=
  match (pySplit response " ")[1]? with
  | none => none
  | some t1 => ((pySplit t1 ":")[1]?).map (fun r => pyDropRight (pyDrop r 1) 1)

/-- The value extraction `tokens[2].split(":")[1]` of tesira.py:295, with
`none` for the `IndexError` cases. -/
def extractPushValue (response : String) : Option String :=
  match (pySplit response " ")[2]? with
  | none => none
  | some t2 => (pySplit t2 ":")[1]?

/-- `BiampTesiraConnection.process_tesira_response` (tesira.py:285-301).
Blank lines, `"\r\n"` and bare `"+OK"` are ignored, as is any line that does
not start with the push marker.  Otherwise the identifier and value are
extracted, the value is coerced to the entry's stored `variable_type`, the
entry is updated in place and the updated record is forwarded to the State
Publisher.  A missing identifier raises `KeyError` before any mutation. -/
def process_tesira_response (st : CState) (response : String) : Except CError Unit × CState :=
  if response = "" ∨ response = "\r\n" ∨ response = "+OK" then (.ok (), st)
  else if ¬ strStartsWith response pushMarker then (.ok (), st)
  else
    match extractPushKey response with
    | none => (.error .indexError, st)
    | some key =>
      match lookupSub st.subscriptions key with
      | none => (.error (.keyError key), st)
      | some entry =>
        match extractPushValue response with
        | none => (.error .indexError, st)
        | some rawVal =>
          match typeAdapterValidate entry.variable_type rawVal with
          | none => (.error (.validationError rawVal), st)
          | some v =>
            let entry2 := { entry with state := v }
            (.ok (), { st with
              subscriptions := updateSub st.subscriptions key entry2,
              published := st.published ++ [(entry2.name, entry2)] })

/-! ## Command dispatch — `BiampTesiraConnection.command` -/

/-- `BiampTesiraConnection.command` (tesira.py:255-265): writes on the
command transport, strips the reply, raises `ClientResponseError` when it
contains `-ERR`, returns `none` for a bare `+OK`, strips the 13-character
`+OK "value":"` prefix and the final quote when the reply contains `value`,
and returns the reply verbatim otherwise. -/
def command (cmd : String) (t : Transport) : Except CError (Option String) × Transport :=
  match writeAndRead t cmd with
  | (.error e, t') => (.error e, t')
  | (.ok resp0, t') =>
    let response := pyStrip resp0
    if strContains response "-ERR" then (.error (.responseError response), t')
    else if response = "+OK" then (.ok none, t')
    else if strContains response "value" then
      (.ok (some (pyDropRight (pyDrop response 13) 1)), t')
    else (.ok (some response), t')

/-! ## Bus-update intake — `BiampTesiraConnection.update_state_and_command` -/

/-- `BiampTesiraConnection.update_state_and_command` (tesira.py:245-253):
looks the key up in the subscription table, raising `ClientError` when it is
absent, then issues a `set` command built from the stored
instance_tag/attribute/index and the raw value on the command transport.
The subscription table is returned unchanged in every case. -/
def update_state_and_command (st : CState) (key value : String) (t : Transport) :
    Except CError Unit × CState × Transport :=
  match lookupSub st.subscriptions key with
  | none => (.error (.clientError ("Key: " ++ key ++ " does not match any subscriptions")), st, t)
  | some e =>
    match command (e.instance_tag ++ " set " ++ e.attr ++ " " ++ e.index.repr ++ " " ++ value) t with
    | (.error err, t') => (.error err, st, t')
    | (.ok _, t') => (.ok (), st, t')

/-! ## Subscription issuance — `BiampTesiraConnection.subscribe` -/

/-- The derived subscription identifier
`f"{instance_tag}_{attribute}_{index}"` (tesira.py:112-114). -/
def subscriptionIdentifier (s : Subscription) : String :=
  s.instance_tag ++ "_" ++ s.attr ++ "_" ++ s.index.repr

/-- The subscribe command
`f"{instance_tag} subscribe {attribute} {index} {identifier}"`
(tesira.py:115). -/
def subscribeCommand (s : Subscription) : String :=
  s.instance_tag ++ " subscribe " ++ s.attr ++ " " ++ s.index.repr ++ " "
    ++ subscriptionIdentifier s

/-- The first interleaved-push drain of `subscribe` (tesira.py:134-139):
while `first_response` starts with the push marker, route it to
`process_tesira_response` and read the next line into `first_response`.
Returns the first non-push line.  `fuel` bounds the iteration; callers pass
`stream.length + 1` so the `fuel = 0` branch (reported as the timeout the
next Python read would raise) is unreachable before the stream empties. -/
def drainPush1 (fuel : Nat) (first : String) (st : CState) (t : Transport) :
    Except CError String × CState × Transport :=
  match fuel with
  | 0 => (.error .timeoutError, st, t)
  | fuel + 1 =>
    if strStartsWith first pushMarker then
      match process_tesira_response st first with
      | (.error e, st') => (.error e, st', t)
      | (.ok _, st') =>
        match telnetReadline t with
        | (.error e, t') => (.error e, st', t')
        | (.ok l, t') => drainPush1 fuel (pyStrip l) st' t'
    else (.ok first, st, t)

/-- The second interleaved-push drain of `subscribe` (tesira.py:145-150),
embedded exactly as written: the loop guard tests `second_response`, but the
body routes `first_response` to the handler and reads the next line into
`first_response`, never reassigning `second_response`. -/
def drainPush2 (fuel : Nat) (first second : String) (st : CState) (t : Transport) :
    Except CError (String × String) × CState × Transport :=
  match fuel with
  | 0 => (.error .timeoutError, st, t)
  | fuel + 1 =>
    if strStartsWith second pushMarker then
      match process_tesira_response st first with
      | (.error e, st') => (.error e, st', t)
      | (.ok _, st') =>
        match telnetReadline t with
        | (.error e, t') => (.error e, st', t')
        | (.ok l, t') => drainPush2 fuel (pyStrip l) second st' t'
    else (.ok (first, second), st, t)

/-- The parse `TypeAdapter(float).validate_python(response.split(" ")[1].split(":")[1])`
of tesira.py:209-211 and 230-231, with explicit `IndexError` and
`ValidationError` outcomes. -/
def parseLevelValue (response : String) : Except CError PyFloat :=
  match (pySplit response " ")[1]? with
  | .none => .error .indexError
  | .some tok =>
    match (pySplit tok ":")[1]? with
    | .none => .error .indexError
    | .some s =>
      match pydanticFloat s with
      | .none => .error (.validationError s)
      | .some q => .ok q

/-- The `if "+OK" in response / elif push / else raise` block of
`get_min_max_levels` (tesira.py:208-215 and 229-236): on a reply containing
`+OK` parse the float; on a push-shaped reply forward it to
`process_tesira_response` and keep the default `0.0`; otherwise raise
`ClientResponseError`. -/
def levelReplyHandle (st : CState) (response : String) :
    Except CError PyFloat × CState :=
  if strContains response "+OK" then
    match parseLevelValue response with
    | .error e => (Except.error e, st)
    | .ok q => (Except.ok q, st)
  else if strStartsWith response pushMarker then
    match process_tesira_response st response with
    | (.error e, st') => (Except.error e, st')
    | (.ok _, st') => (Except.ok (PyFloat.mk 0 0), st')
  else (Except.error (CError.responseError response), st)

/-- One half of `get_min_max_levels` (tesira.py:201-220 for `minLevel`,
222-241 for `maxLevel`): issue the `get` command, handle the reply with
`levelReplyHandle`, then read one line and feed it to
`process_tesira_response` to eliminate the trailing blank. -/
def getOneLevel (cmd : String) (st : CState) (t : Transport) :
    Except CError PyFloat × CState × Transport :=
  match writeAndRead t cmd with
  | (.error e, t1) => (.error e, st, t1)
  | (.ok r0, t1) =>
    let response := pyStrip r0
    match levelReplyHandle st response with
    | (.error e, st1) => (.error e, st1, t1)
    | (.ok level, st1) =>
      match telnetReadline t1 with
      | (.error e, t2) => (.error e, st1, t2)
      | (.ok bl, t2) =>
        match process_tesira_response st1 bl with
        | (.error e, st2) => (.error e, st2, t2)
        | (.ok _, st2) => (.ok level, st2, t2)

/-- `BiampTesiraConnection.get_min_max_levels` (tesira.py:192-243): both
bounds default to `0.0`; the handle is checked, then the `minLevel` and
`maxLevel` exchanges run in sequence on the event transport. -/
def get_min_max_levels (sub : Subscription) (st : CState) (t : Transport) :
    Except CError (PyFloat × PyFloat) × CState × Transport :=
  if ¬ t.isOpen then (.error (.connectionError "Client not connected."), st, t)
  else
    match getOneLevel (sub.instance_tag ++ " get minLevel " ++ sub.index.repr) st t with
    | (.error e, st1, t1) => (.error e, st1, t1)
    | (.ok min_level, st1, t1) =>
      match getOneLevel (sub.instance_tag ++ " get maxLevel " ++ sub.index.repr) st1 t1 with
      | (.error e, st2, t2) => (.error e, st2, t2)
      | (.ok max_level, st2, t2) => (.ok (min_level, max_level), st2, t2)

/-- The `match subscription.attribute` of tesira.py:161-168 selecting the
stored value kind: `mute → bool`, `level → float`, anything else → `str`. -/
def variableTypeFor (attr : String) : String :=
  if attr = "mute" then "bool"
  else if attr = "level" then "float"
  else "str"

/-- `BiampTesiraConnection.subscribe` (tesira.py:104-190), embedded line by
line over the event transport:

1. handle check; 2. issue the subscribe command through `_write`; 3. re-read
once when the stripped first reply is blank (the membership test
`first_response in ("\r\n")` is substring membership in the two-character
string, which a stripped nonempty string never satisfies, so the condition
collapses to blankness); 4. `-ERR ALREADY_SUBSCRIBED` returns successfully;
5. any other `-ERR` raises `ClientResponseError`; 6. on resubscription the
two push drains run; 7. on a `+OK` second line the initial value is
extracted from `first_response.split(" ")[2].split(":")[1]`, the trailing
blank is consumed, the value kind and (for `level`) the min/max bounds are
determined, and the record is stored and forwarded to the State Publisher;
8. otherwise one line is consumed and the call returns without storing. -/
def subscribe (sub : Subscription) (st : CState) (t : Transport) :
    Except CError Unit × CState × Transport :=
  if ¬ t.isOpen then (.error (.connectionError "Client not connected."), st, t)
  else
    match writeAndRead t (subscribeCommand sub) with
    | (.error e, t1) => (.error e, st, t1)
    | (.ok fr0, t1) =>
      match (if pyStrip fr0 = "" then telnetReadline t1 else (.ok fr0, t1)) with
      | (.error e, t2) => (.error e, st, t2)
      | (.ok fr1, t2) =>
        let first := pyStrip fr1
        if strContains first "-ERR ALREADY_SUBSCRIBED" then (.ok (), st, t2)
        else if strContains first "-ERR" then (.error (.responseError first), st, t2)
        else
          match (if (lookupSub st.subscriptions (subscriptionIdentifier sub)).isSome then
                   drainPush1 (t2.stream.length + 1) first st t2
                 else (.ok first, st, t2)) with
          | (.error e, st3, t3) => (.error e, st3, t3)
          | (.ok first2, st3, t3) =>
            match telnetReadline t3 with
            | (.error e, t4) => (.error e, st3, t4)
            | (.ok sr0, t4) =>
              let second := pyStrip sr0
              match (if (lookupSub st3.subscriptions (subscriptionIdentifier sub)).isSome then
                       drainPush2 (t4.stream.length + 1) first2 second st3 t4
                     else (.ok (first2, second), st3, t4)) with
              | (.error e, st4, t5) => (.error e, st4, t5)
              | (.ok (first3, second3), st4, t5) =>
                if second3 = "+OK" then
                  match (pySplit first3 " ")[2]? with
                  | none => (.error .indexError, st4, t5)
                  | some tok2 =>
                    match (pySplit tok2 ":")[1]? with
                    | none => (.error .indexError, st4, t5)
                    | some original_value =>
                      match telnetReadline t5 with
                      | (.error e, t6) => (.error e, st4, t6)
                      | (.ok bl, t6) =>
                        match process_tesira_response st4 bl with
                        | (.error e, st5) => (.error e, st5, t6)
                        | (.ok _, st5) =>
                          let variable_type := variableTypeFor sub.attr
                          match (if sub.attr = "level" then
                                   match get_min_max_levels sub st5 t6 with
                                   | (.error e, st6, t7) => (Except.error e, st6, t7)
                                   | (.ok mm, st6, t7) => (Except.ok (some mm), st6, t7)
                                 else (Except.ok none, st5, t6)) with
                          | (.error e, st6, t7) => (.error e, st6, t7)
                          | (.ok other_items, st6, t7) =>
                            match typeAdapterValidate variable_type original_value with
                            | none => (.error (.validationError original_value), st6, t7)
                            | some v =>
                              let data : Entry := {
                                instance_tag := sub.instance_tag,
                                attr := sub.attr,
                                index := sub.index,
                                state := v,
                                variable_type := variable_type,
                                device_id := st6.serial ++ "_" ++ sub.instance_tag,
                                unique_id := st6.serial ++ "_" ++ sub.instance_tag ++ "_"
                                  ++ sub.attr ++ "_" ++ sub.index.repr,
                                name := sub.name,
                                device_name := sub.device_name,
                                identifier := subscriptionIdentifier sub,
                                min_level := other_items.map Prod.fst,
                                max_level := other_items.map Prod.snd }
                              (.ok (), { st6 with
                                subscriptions := updateSub st6.subscriptions
                                  (subscriptionIdentifier sub) data,
                                published := st6.published ++ [(sub.name, data)] }, t7)
                else
                  match telnetReadline t5 with
                  | (.error e, t6) => (.error e, st4, t6)
                  | (.ok bl, t6) =>
                    match process_tesira_response st4 bl with
                    | (.error e, st5) => (.error e, st5, t6)
                    | (.ok _, st5) => (.ok (), st5, t6)

/-! ## General lemmas about the embedded operations -/

theorem lookupSub_updateSub_self : ∀ (l : List (String × Entry)) (k : String) (e : Entry),
    lookupSub (updateSub l k e) k = some e
  | [], k, e => by simp [updateSub, lookupSub]
  | (k0, e0) :: rest, k, e => by
    by_cases h : k0 = k
    · simp [updateSub, lookupSub, h]
    · simp only [updateSub, if_neg h, lookupSub]
      exact lookupSub_updateSub_self rest k e

theorem lookupSub_updateSub_other : ∀ (l : List (String × Entry)) (k k' : String) (e : Entry),
    k' ≠ k → lookupSub (updateSub l k e) k' = lookupSub l k'
  | [], k, k', e, h => by
    simp only [updateSub, lookupSub]
    rw [if_neg (fun hc => h hc.symm)]
  | (k0, e0) :: rest, k, k', e, h => by
    by_cases h0 : k0 = k
    · subst h0
      simp only [updateSub, if_pos rfl, lookupSub]
      rw [if_neg (fun hc => h hc.symm), if_neg (fun hc => h hc.symm)]
    · simp only [updateSub, if_neg h0, lookupSub]
      by_cases h1 : k0 = k'
      · rw [if_pos h1, if_pos h1]
      · rw [if_neg h1, if_neg h1]
        exact lookupSub_updateSub_other rest k k' e h

theorem lookupSub_updateSub_cases (l : List (String × Entry)) (k k' : String) (e e' : Entry)
    (h : lookupSub (updateSub l k e) k' = some e') :
    e' = e ∨ lookupSub l k' = some e' := by
  by_cases hk : k' = k
  · subst hk
    rw [lookupSub_updateSub_self] at h
    exact .inl (Option.some.inj h).symm
  · rw [lookupSub_updateSub_other l k k' e hk] at h
    exact .inr h

/-- `_write` returns normally only on an open transport. -/
theorem writeAndRead_ok_isOpen {t : Transport} {cmd r : String} {t' : Transport}
    (h : writeAndRead t cmd = (.ok r, t')) : t.isOpen = true := by
  by_cases ho : t.isOpen
  · exact ho
  · simp [writeAndRead, ho] at h

/-- Every branch of `command` returns the transport produced by `_write`. -/
theorem command_transport_eq (cmd : String) (t : Transport) :
    (command cmd t).2 = (writeAndRead t cmd).2 := by
  unfold command
  rcases h : writeAndRead t cmd with ⟨res, t'⟩
  cases res with
  | error e => rfl
  | ok resp0 =>
    dsimp only
    split
    · rfl
    · split
      · rfl
      · split <;> rfl

/-- On an open transport, `_write` records exactly the issued command. -/
theorem writeAndRead_writes (t : Transport) (cmd : String) (ho : t.isOpen = true) :
    (writeAndRead t cmd).2.writes = t.writes ++ [cmd] := by
  obtain ⟨o, s, w⟩ := t
  simp only at ho
  subst ho
  cases s with
  | nil => rfl
  | cons l rest =>
    by_cases hc : strContains (pyStrip (BiampTesiraTelnetConnection.removeNuls l)) cmd
    · cases rest <;> simp [writeAndRead, telnetWrite, telnetReadline, hc]
    · simp [writeAndRead, telnetWrite, telnetReadline, hc]

/-! ## C1 — command reply grammar -/

/-- C1 counterexample: the reply `"a value b"` matches none of the claim's
three shapes — it is not a bare `+OK`, does not begin with the fixed
`+OK "value":` prefix, and is not an `-ERR` reply — yet `command` does not
return it verbatim: because it contains the substring `value`, the
13-character slice is applied and the empty string is returned. -/
theorem command_verbatim_counterexample :
    (command "CMD" { isOpen := true, stream := ["a value b"], writes := [] }).1
        = .ok (some "")
    ∧ ("a value b" : String) ≠ ""
    ∧ ("a value b" : String) ≠ "+OK"
    ∧ strStartsWith "a value b" "+OK" = false
    ∧ strContains "a value b" "-ERR" = false := by
  refine ⟨by decide, by decide, by decide, by decide, by decide⟩

/-- C1 amended: `command` yields `null` for a bare `+OK`; unwraps the
`+OK "value":"42.5"` reply to `"42.5"`; fails with a `ResponseError`
containing `INVALID_INDEX` for the reply `-ERR INVALID_INDEX` (in general,
for any reply containing `-ERR`); and returns a reply verbatim only when it
contains no `-ERR`, is not exactly `+OK`, and does not contain the substring
`value` — a reply merely containing `value` anywhere is sliced as if it
carried the fixed-width prefix. -/
theorem command_reply_grammar :
    ((command "CMD" { isOpen := true, stream := ["+OK"], writes := [] }).1 = .ok none)
    ∧ ((command "CMD" { isOpen := true, stream := ["+OK \"value\":\"42.5\""], writes := [] }).1
        = .ok (some "42.5"))
    ∧ ((command "CMD" { isOpen := true, stream := ["-ERR INVALID_INDEX"], writes := [] }).1
        = .error (.responseError "-ERR INVALID_INDEX")
       ∧ strContains "-ERR INVALID_INDEX" "INVALID_INDEX" = true)
    ∧ (∀ cmd t r t', writeAndRead t cmd = (.ok r, t') →
        strContains (pyStrip r) "-ERR" = true →
        command cmd t = (.error (.responseError (pyStrip r)), t'))
    ∧ (∀ cmd t r t', writeAndRead t cmd = (.ok r, t') →
        strContains (pyStrip r) "-ERR" = false → pyStrip r ≠ "+OK" →
        strContains (pyStrip r) "value" = false →
        command cmd t = (.ok (some (pyStrip r)), t')) := by
  refine ⟨by decide, by decide, ⟨by decide, by decide⟩, ?_, ?_⟩
  · intro cmd t r t' hw herr
    unfold command
    rw [hw]
    simp [herr]
  · intro cmd t r t' hw herr hok hval
    unfold command
    rw [hw]
    simp [herr, hok, hval]

/-- Witness for the hypotheses of `command_reply_grammar`: the two general
clauses applied at explicit replies. -/
theorem command_reply_grammar_witness :
    command "CMD" { isOpen := true, stream := ["-ERR CANNOT_DELIVER"], writes := [] }
      = (.error (.responseError "-ERR CANNOT_DELIVER"),
         { isOpen := true, stream := [], writes := ["CMD"] })
    ∧ command "CMD" { isOpen := true, stream := ["GETD"], writes := [] }
      = (.ok (some "GETD"), { isOpen := true, stream := [], writes := ["CMD"] }) := by
  constructor
  · exact command_reply_grammar.2.2.2.1 "CMD" _ "-ERR CANNOT_DELIVER"
      { isOpen := true, stream := [], writes := ["CMD"] } (by decide) (by decide)
  · exact command_reply_grammar.2.2.2.2 "CMD" _ "GETD"
      { isOpen := true, stream := [], writes := ["CMD"] } (by decide) (by decide)
      (by decide) (by decide)

/-! ## Concrete fixtures used by witnesses -/

/-- A configured `mute` subscription. -/
def mixerMuteSub : Subscription :=
  { instance_tag := "Mixer1", attr := "mute", index := 1,
    name := "Mute", device_name := "Mixer" }

/-- A configured `level` subscription. -/
def mixerLevelSub : Subscription :=
  { instance_tag := "Mixer1", attr := "level", index := 2,
    name := "Vol", device_name := "Mixer" }

/-- A client state with an empty subscription table. -/
def emptyState : CState := { subscriptions := [], serial := "SER", published := [] }

/-- The table entry produced by subscribing `mixerMuteSub`. -/
def muteEntry : Entry :=
  { instance_tag := "Mixer1", attr := "mute", index := 1,
    state := .bool true, variable_type := "bool", device_id := "SER_Mixer1",
    unique_id := "SER_Mixer1_mute_1", name := "Mute", device_name := "Mixer",
    identifier := "Mixer1_mute_1", min_level := none, max_level := none }

/-- A client state whose table holds `muteEntry`. -/
def muteState : CState :=
  { subscriptions := [("Mixer1_mute_1", muteEntry)], serial := "SER", published := [] }

/-- The table entry produced by subscribing `mixerLevelSub`. -/
def levelEntry : Entry :=
  { instance_tag := "Mixer1", attr := "level", index := 2,
    state := .float ⟨0, 0⟩, variable_type := "float", device_id := "SER_Mixer1",
    unique_id := "SER_Mixer1_level_2", name := "Vol", device_name := "Mixer",
    identifier := "Mixer1_level_2", min_level := some ⟨0, 0⟩, max_level := some ⟨0, 0⟩ }

/-- A client state whose table holds `levelEntry`. -/
def levelState : CState :=
  { subscriptions := [("Mixer1_level_2", levelEntry)], serial := "SER", published := [] }

/-- A device push notification for the known identifier `Mixer1_mute_1`. -/
def mutePushLine : String := "! \"publishToken\":\"Mixer1_mute_1\" \"value\":false"

/-! ## C8 — Line Transport close semantics (`src/telnet.py`) -/

namespace BiampTesiraTelnetConnection

/-- C8: for every Line Transport handle, `close()` is idempotent and never
raises, `closed` is true afterwards, and every subsequent `write`,
`readline` or `readuntil` call fails with the connection error. -/
theorem close_idempotent_closed_errors :
    ∀ (c : BiampTesiraTelnetConnection) (cmd separator : String) (stream : List String),
      close (close c) = close c
    ∧ (close c).closed = true
    ∧ (close c).write cmd = .error (.connectionError "Client not connected.")
    ∧ (close c).readline stream = .error (.connectionError "Client not connected.")
    ∧ (close c).readuntil separator stream
        = .error (.connectionError "Client not connected.") := by
  intro c cmd separator stream
  obtain ⟨r, w, id⟩ := c
  refine ⟨?_, ?_, ?_, ?_, ?_⟩ <;>
    cases w with
    | none => simp [close, closed, write, readline, readuntil]
    | some w0 =>
      cases hw : w0.is_closing <;>
        simp [close, closed, write, readline, readuntil, hw]

end BiampTesiraTelnetConnection

/-! ## C7 — bus-update intake (`update_state_and_command`) -/

/-- C7: `applyIncomingUpdate` on an identifier absent from the subscription
table fails with the no-such-subscription error (the spec's LookupError
kind) and issues no command (state and transport are untouched); on a
present identifier it issues exactly the `set` command built from the stored
instance_tag, attribute and index with the raw value, and does not mutate
the stored Attribute State. -/
theorem update_state_and_command_spec :
    (∀ st key value t, lookupSub st.subscriptions key = none →
        update_state_and_command st key value t =
          (.error (.clientError ("Key: " ++ key ++ " does not match any subscriptions")),
           st, t))
    ∧ (∀ st key value t e, lookupSub st.subscriptions key = some e → t.isOpen = true →
        (update_state_and_command st key value t).2.1 = st
        ∧ (update_state_and_command st key value t).2.2.writes =
            t.writes
              ++ [e.instance_tag ++ " set " ++ e.attr ++ " " ++ e.index.repr ++ " " ++ value]) := by
  constructor
  · intro st key value t h
    unfold update_state_and_command
    rw [h]
  · intro st key value t e h ho
    unfold update_state_and_command
    rw [h]
    have h1 := command_transport_eq
      (e.instance_tag ++ " set " ++ e.attr ++ " " ++ e.index.repr ++ " " ++ value) t
    have h2 := writeAndRead_writes t
      (e.instance_tag ++ " set " ++ e.attr ++ " " ++ e.index.repr ++ " " ++ value) ho
    rcases hc : command
        (e.instance_tag ++ " set " ++ e.attr ++ " " ++ e.index.repr ++ " " ++ value) t
      with ⟨res, t'⟩
    rw [hc] at h1
    cases res <;> simp_all

/-- Witness for `update_state_and_command_spec` at the spec's concrete
inputs: key `Mixer1_mute_1` with value `true` issues exactly
`Mixer1 set mute 1 true` without touching the table; key `unknown_id` fails
and issues nothing. -/
theorem update_state_and_command_spec_witness :
    ((update_state_and_command muteState "unknown_id" "1"
        { isOpen := true, stream := ["+OK"], writes := [] }) =
      (.error (.clientError "Key: unknown_id does not match any subscriptions"),
       muteState, { isOpen := true, stream := ["+OK"], writes := [] }))
    ∧ ((update_state_and_command muteState "Mixer1_mute_1" "true"
          { isOpen := true, stream := ["+OK"], writes := [] }).2.1 = muteState
       ∧ (update_state_and_command muteState "Mixer1_mute_1" "true"
          { isOpen := true, stream := ["+OK"], writes := [] }).2.2.writes =
         [] ++ ["Mixer1 set mute 1 true"]) := by
  constructor
  · exact update_state_and_command_spec.1 muteState "unknown_id" "1" _ (by decide)
  · exact update_state_and_command_spec.2 muteState "Mixer1_mute_1" "true"
      { isOpen := true, stream := ["+OK"], writes := [] } muteEntry (by decide) (by decide)

/-! ## C4 — push notification for a known identifier -/

/-- C4: handling a push-notification line whose extracted identifier is a
key of the subscription table succeeds, stores exactly the notification
value coerced to the entry's stored value kind, forwards exactly one record
to the State Publisher, and leaves every other table entry unchanged. -/
theorem process_push_known_key :
    ∀ st response key entry rawVal v,
      strStartsWith response pushMarker = true →
      extractPushKey response = some key →
      extractPushValue response = some rawVal →
      lookupSub st.subscriptions key = some entry →
      typeAdapterValidate entry.variable_type rawVal = some v →
      process_tesira_response st response =
        (.ok (), { st with
            subscriptions := updateSub st.subscriptions key { entry with state := v },
            published := st.published ++ [(entry.name, { entry with state := v })] })
      ∧ lookupSub (updateSub st.subscriptions key { entry with state := v }) key
          = some { entry with state := v }
      ∧ (∀ k, k ≠ key →
          lookupSub (updateSub st.subscriptions key { entry with state := v }) k
            = lookupSub st.subscriptions k) := by
  intro st response key entry rawVal v hm hk hv hl hc
  refine ⟨?_, lookupSub_updateSub_self _ _ _, fun k hkk => lookupSub_updateSub_other _ _ _ _ hkk⟩
  have hne : ¬ (response = "" ∨ response = "\r\n" ∨ response = "+OK") := by
    rintro (rfl | rfl | rfl) <;> exact absurd hm (by decide)
  unfold process_tesira_response
  rw [if_neg hne]
  simp only [hm, not_true, if_false]
  simp only [hk, hl, hv, hc]

/-- Witness for `process_push_known_key`: the push line `mutePushLine` on
the table holding `muteEntry`. -/
theorem process_push_known_key_witness :
    process_tesira_response muteState mutePushLine =
      (.ok (), { muteState with
          subscriptions := updateSub muteState.subscriptions "Mixer1_mute_1"
            { muteEntry with state := .bool false },
          published := muteState.published
            ++ [(muteEntry.name, { muteEntry with state := .bool false })] }) :=
  (process_push_known_key muteState mutePushLine "Mixer1_mute_1" muteEntry "false"
    (.bool false) (by decide) (by decide) (by decide) (by decide) (by decide)).1

/-! ## C9 — push notification for an unknown identifier -/

/-- C9: handling a push-notification line whose extracted identifier is not
a key of the subscription table fails with the key-lookup error, and the
returned state is exactly the input state: the table is unchanged and
nothing is forwarded to the State Publisher. -/
theorem process_push_unknown_key :
    ∀ st response key,
      strStartsWith response pushMarker = true →
      extractPushKey response = some key →
      lookupSub st.subscriptions key = none →
      process_tesira_response st response = (.error (.keyError key), st) := by
  intro st response key hm hk hl
  have hne : ¬ (response = "" ∨ response = "\r\n" ∨ response = "+OK") := by
    rintro (rfl | rfl | rfl) <;> exact absurd hm (by decide)
  unfold process_tesira_response
  rw [if_neg hne]
  simp only [hm, not_true, if_false]
  simp only [hk, hl]

/-- Witness for `process_push_unknown_key`: a push for `Ghost_mute_9` on the
table that only holds `Mixer1_mute_1`. -/
theorem process_push_unknown_key_witness :
    process_tesira_response muteState "! \"publishToken\":\"Ghost_mute_9\" \"value\":true"
      = (.error (.keyError "Ghost_mute_9"), muteState) :=
  process_push_unknown_key muteState "! \"publishToken\":\"Ghost_mute_9\" \"value\":true"
    "Ghost_mute_9" (by decide) (by decide) (by decide)

/-! ## C5 — idempotent resubscription on `-ERR ALREADY_SUBSCRIBED` -/

/-- C5: when the (non-blank) reply to the subscribe command contains
`-ERR ALREADY_SUBSCRIBED`, `subscribe` returns successfully and the client
state — the subscription table and the list of published records — is
exactly what it was before the call. -/
theorem subscribe_already_subscribed_idempotent :
    ∀ sub st t r t',
      writeAndRead t (subscribeCommand sub) = (.ok r, t') →
      strContains (pyStrip r) "-ERR ALREADY_SUBSCRIBED" = true →
      subscribe sub st t = (.ok (), st, t') := by
  intro sub st t r t' hw hc
  have ho : t.isOpen = true := writeAndRead_ok_isOpen hw
  have hr : ¬ pyStrip r = "" := by
    intro h0
    rw [h0] at hc
    exact absurd hc (by decide)
  unfold subscribe
  rw [if_neg (fun hno => hno ho), hw]
  dsimp only
  rw [if_neg hr]
  dsimp only
  simp only [hc, if_true]

/-- Witness for `subscribe_already_subscribed_idempotent`: a device that
replies `-ERR ALREADY_SUBSCRIBED` to the subscribe command. -/
theorem subscribe_already_subscribed_idempotent_witness :
    subscribe mixerMuteSub muteState
      { isOpen := true, stream := ["-ERR ALREADY_SUBSCRIBED"], writes := [] }
      = (.ok (), muteState,
         { isOpen := true, stream := [],
           writes := ["Mixer1 subscribe mute 1 Mixer1_mute_1"] }) :=
  subscribe_already_subscribed_idempotent mixerMuteSub muteState
    { isOpen := true, stream := ["-ERR ALREADY_SUBSCRIBED"], writes := [] }
    "-ERR ALREADY_SUBSCRIBED"
    { isOpen := true, stream := [],
      writes := ["Mixer1 subscribe mute 1 Mixer1_mute_1"] }
    (by decide) (by decide)

/-! ## C2 — the second interleaved-push drain of `subscribe` -/

/-- C2: the second interleaved-push drain (tesira.py:145-150) can never
treat any line as the final `+OK` terminator once the line it tests is a
push line: its guard reads `second_response`, which the body never
reassigns (the body routes and overwrites `first_response` instead), so the
loop never returns normally for any amount of fuel, any state and any
stream — it only ends in an error (in practice the read timeout after the
stream is exhausted).  The second conjunct evaluates the whole of
`subscribe` at the failing input: a resubscription whose value line is
followed by the push `mutePushLine` and then by the terminator `+OK` ends
in the timeout error instead of consuming the terminator. -/
theorem subscribe_second_drain_never_terminates :
    (∀ fuel first st t, ∃ e, (drainPush2 fuel first mutePushLine st t).1 = Except.error e)
    ∧ (subscribe mixerMuteSub muteState
        { isOpen := true,
          stream := ["Mixer1_mute_1 subscribe \"value\":true", mutePushLine, "+OK", ""],
          writes := [] }).1 = .error .timeoutError := by
  constructor
  · intro fuel
    induction fuel with
    | zero => intro first st t; exact ⟨.timeoutError, rfl⟩
    | succ n ih =>
      intro first st t
      unfold drainPush2
      rw [if_pos (show strStartsWith mutePushLine pushMarker = true by decide)]
      rcases hp : process_tesira_response st first with ⟨res, st'⟩
      cases res with
      | error e => exact ⟨e, rfl⟩
      | ok u =>
        rcases hr : telnetReadline t with ⟨resr, t2⟩
        cases resr with
        | error e => exact ⟨e, rfl⟩
        | ok l => exact ih (pyStrip l) st' t2
  · decide

/-! ## C6 — min/max level lookup and interleaved pushes -/

/-- C6 counterexample: during the `minLevel` exchange the device first sends
a push notification for the known identifier `Mixer1_level_2` and then the
reply `+OK "value":-42.0`; per the claim the transport should be re-read so
that `min_level = -42.0`.  The code forwards the push but never re-reads for
the bound: the call succeeds with `min_level = 0.0` (the default), and the
`+OK "value":-42.0` line is swallowed by the blank-line elimination. -/
theorem get_min_max_levels_push_counterexample :
    (get_min_max_levels mixerLevelSub levelState
        { isOpen := true,
          stream := ["! \"publishToken\":\"Mixer1_level_2\" \"value\":-5.0",
                     "+OK \"value\":-42.0", "+OK \"value\":12.0", ""],
          writes := [] }).1 = .ok (⟨0, 0⟩, ⟨12, 0⟩)
    ∧ strStartsWith "! \"publishToken\":\"Mixer1_level_2\" \"value\":-5.0" pushMarker = true
    ∧ pydanticFloat "-42.0" = some ⟨-42, 0⟩
    ∧ (get_min_max_levels mixerLevelSub levelState
        { isOpen := true,
          stream := ["! \"publishToken\":\"Mixer1_level_2\" \"value\":-5.0",
                     "+OK \"value\":-42.0", "+OK \"value\":12.0", ""],
          writes := [] }).1 ≠ .ok (⟨-42, 0⟩, ⟨12, 0⟩) := by
  refine ⟨by decide, by decide, by decide, by decide⟩

/-- C6 amended: in the min/max level lookup, a reply that looks like a push
notification (and does not contain `+OK`) is forwarded to the
push-notification handler and does not count as the answer, but the
transport is NOT re-read for that bound: any successful result returns the
default `0.0` for it (first conjunct), and a failure of the handler on the
forwarded line propagates (second conjunct, showing the routing); a reply
that neither contains `+OK` nor is push-shaped raises `ResponseError`
(third conjunct). -/
theorem getOneLevel_push_keeps_default :
    (∀ cmd st t r t', writeAndRead t cmd = (.ok r, t') →
        strContains (pyStrip r) "+OK" = false →
        strStartsWith (pyStrip r) pushMarker = true →
        ∀ q st1 t1, getOneLevel cmd st t = (.ok q, st1, t1) → q = ⟨0, 0⟩)
    ∧ (∀ cmd st t r t' e stE, writeAndRead t cmd = (.ok r, t') →
        strContains (pyStrip r) "+OK" = false →
        strStartsWith (pyStrip r) pushMarker = true →
        process_tesira_response st (pyStrip r) = (.error e, stE) →
        getOneLevel cmd st t = (.error e, stE, t'))
    ∧ (∀ cmd st t r t', writeAndRead t cmd = (.ok r, t') →
        strContains (pyStrip r) "+OK" = false →
        strStartsWith (pyStrip r) pushMarker = false →
        getOneLevel cmd st t = (.error (.responseError (pyStrip r)), st, t')) := by
  refine ⟨?_, ?_, ?_⟩
  · intro cmd st t r t' hw hok hm q st1 t1 h
    unfold getOneLevel levelReplyHandle at h
    rw [hw] at h
    dsimp only at h
    rw [if_neg (by rw [hok]; exact Bool.false_ne_true), if_pos hm] at h
    rcases hp : process_tesira_response st (pyStrip r) with ⟨res2, st2⟩
    rw [hp] at h
    cases res2 with
    | error e => simp at h
    | ok u =>
      dsimp only at h
      rcases hrl : telnetReadline t' with ⟨res3, t3⟩
      rw [hrl] at h
      cases res3 with
      | error e => simp at h
      | ok bl =>
        dsimp only at h
        rcases hp2 : process_tesira_response st2 bl with ⟨res4, st4⟩
        rw [hp2] at h
        cases res4 with
        | error e => simp at h
        | ok u2 =>
          dsimp only at h
          simp only [Prod.mk.injEq, Except.ok.injEq] at h
          exact h.1.symm
  · intro cmd st t r t' e stE hw hok hm hp
    unfold getOneLevel levelReplyHandle
    rw [hw]
    dsimp only
    rw [if_neg (by rw [hok]; exact Bool.false_ne_true), if_pos hm, hp]
  · intro cmd st t r t' hw hok hm
    unfold getOneLevel levelReplyHandle
    rw [hw]
    dsimp only
    rw [if_neg (by rw [hok]; exact Bool.false_ne_true),
        if_neg (by rw [hm]; exact Bool.false_ne_true)]

/-- Witness for `getOneLevel_push_keeps_default`: the three clauses applied
at explicit streams — a known-identifier push (bound keeps 0.0), an
unknown-identifier push (the handler's KeyError propagates), and a garbage
reply (ResponseError). -/
theorem getOneLevel_push_keeps_default_witness :
    (PyFloat.mk 0 0 = ⟨0, 0⟩)
    ∧ getOneLevel "Mixer1 get minLevel 2" muteState
        { isOpen := true,
          stream := ["! \"publishToken\":\"Ghost_level_3\" \"value\":-5.0"], writes := [] }
        = (.error (.keyError "Ghost_level_3"), muteState,
           { isOpen := true, stream := [],
             writes := ["Mixer1 get minLevel 2"] })
    ∧ getOneLevel "Mixer1 get minLevel 2" muteState
        { isOpen := true, stream := ["garbage"], writes := [] }
        = (.error (.responseError "garbage"), muteState,
           { isOpen := true, stream := [], writes := ["Mixer1 get minLevel 2"] }) := by
  refine ⟨?_, ?_, ?_⟩
  · exact getOneLevel_push_keeps_default.1 "Mixer1 get minLevel 2" levelState
      { isOpen := true,
        stream := ["! \"publishToken\":\"Mixer1_level_2\" \"value\":-5.0", ""], writes := [] }
      "! \"publishToken\":\"Mixer1_level_2\" \"value\":-5.0"
      { isOpen := true, stream := [""], writes := ["Mixer1 get minLevel 2"] }
      (by decide) (by decide) (by decide)
      ⟨0, 0⟩
      ((getOneLevel "Mixer1 get minLevel 2" levelState
        { isOpen := true,
          stream := ["! \"publishToken\":\"Mixer1_level_2\" \"value\":-5.0", ""],
          writes := [] }).2.1)
      ((getOneLevel "Mixer1 get minLevel 2" levelState
        { isOpen := true,
          stream := ["! \"publishToken\":\"Mixer1_level_2\" \"value\":-5.0", ""],
          writes := [] }).2.2)
      (by decide)
  · exact getOneLevel_push_keeps_default.2.1 "Mixer1 get minLevel 2" muteState
      { isOpen := true,
        stream := ["! \"publishToken\":\"Ghost_level_3\" \"value\":-5.0"], writes := [] }
      "! \"publishToken\":\"Ghost_level_3\" \"value\":-5.0"
      { isOpen := true, stream := [], writes := ["Mixer1 get minLevel 2"] }
      (.keyError "Ghost_level_3") muteState
      (by decide) (by decide) (by decide) (by decide)
  · exact getOneLevel_push_keeps_default.2.2 "Mixer1 get minLevel 2" muteState
      { isOpen := true, stream := ["garbage"], writes := [] }
      "garbage"
      { isOpen := true, stream := [], writes := ["Mixer1 get minLevel 2"] }
      (by decide) (by decide) (by decide)

/-! ## C10 — value kinds from a validated configuration -/

/-- Safety invariant: every entry of the subscription table carries value
kind `bool` or `float`. -/
def goodKinds (st : CState) : Prop :=
  ∀ k e, lookupSub st.subscriptions k = some e →
    e.variable_type = "bool" ∨ e.variable_type = "float"

theorem process_preserves_goodKinds (st : CState) (resp : String) (hg : goodKinds st) :
    goodKinds (process_tesira_response st resp).2 := by
  unfold process_tesira_response
  split
  · exact hg
  split
  · exact hg
  split
  · exact hg
  rename_i key hk
  split
  · exact hg
  rename_i entry hlook
  split
  · exact hg
  rename_i rawv hraw
  split
  · exact hg
  rename_i v hv
  intro k e hle
  rcases lookupSub_updateSub_cases _ _ _ _ _ hle with he | he
  · subst he
    exact hg key entry hlook
  · exact hg k e he

theorem drainPush1_preserves_goodKinds :
    ∀ (fuel : Nat) (first : String) (st : CState) (t : Transport), goodKinds st →
      goodKinds (drainPush1 fuel first st t).2.1
  | 0, first, st, t, hg => hg
  | fuel + 1, first, st, t, hg => by
    unfold drainPush1
    split
    · rcases hp : process_tesira_response st first with ⟨res, st'⟩
      have hg' := process_preserves_goodKinds st first hg
      rw [hp] at hg'
      cases res with
      | error e => exact hg'
      | ok u =>
        dsimp only
        rcases hr : telnetReadline t with ⟨res2, t2⟩
        cases res2 with
        | error e => exact hg'
        | ok l => exact drainPush1_preserves_goodKinds fuel (pyStrip l) st' t2 hg'
    · exact hg

theorem drainPush2_preserves_goodKinds :
    ∀ (fuel : Nat) (first second : String) (st : CState) (t : Transport), goodKinds st →
      goodKinds (drainPush2 fuel first second st t).2.1
  | 0, first, second, st, t, hg => hg
  | fuel + 1, first, second, st, t, hg => by
    unfold drainPush2
    split
    · rcases hp : process_tesira_response st first with ⟨res, st'⟩
      have hg' := process_preserves_goodKinds st first hg
      rw [hp] at hg'
      cases res with
      | error e => exact hg'
      | ok u =>
        dsimp only
        rcases hr : telnetReadline t with ⟨res2, t2⟩
        cases res2 with
        | error e => exact hg'
        | ok l => exact drainPush2_preserves_goodKinds fuel (pyStrip l) second st' t2 hg'
    · exact hg

theorem levelReplyHandle_preserves_goodKinds (st : CState) (resp : String) (hg : goodKinds st) :
    goodKinds (levelReplyHandle st resp).2 := by
  unfold levelReplyHandle
  split
  · split <;> exact hg
  split
  · rcases hp : process_tesira_response st resp with ⟨res, st'⟩
    have hg' := process_preserves_goodKinds st resp hg
    rw [hp] at hg'
    cases res <;> exact hg'
  · exact hg

theorem getOneLevel_preserves_goodKinds (cmd : String) (st : CState) (t : Transport)
    (hg : goodKinds st) : goodKinds (getOneLevel cmd st t).2.1 := by
  unfold getOneLevel
  rcases hw : writeAndRead t cmd with ⟨res, t1⟩
  cases res with
  | error e => exact hg
  | ok r0 =>
    dsimp only
    rcases hl : levelReplyHandle st (pyStrip r0) with ⟨res2, st2⟩
    have hg2 := levelReplyHandle_preserves_goodKinds st (pyStrip r0) hg
    rw [hl] at hg2
    cases res2 with
    | error e => exact hg2
    | ok level =>
      dsimp only
      rcases hr : telnetReadline t1 with ⟨res3, t3⟩
      cases res3 with
      | error e => exact hg2
      | ok bl =>
        dsimp only
        rcases hp : process_tesira_response st2 bl with ⟨res4, st4⟩
        have hg4 := process_preserves_goodKinds st2 bl hg2
        rw [hp] at hg4
        cases res4 <;> exact hg4

theorem get_min_max_levels_preserves_goodKinds (sub : Subscription) (st : CState)
    (t : Transport) (hg : goodKinds st) : goodKinds (get_min_max_levels sub st t).2.1 := by
  unfold get_min_max_levels
  split
  · exact hg
  · rcases h1 : getOneLevel (sub.instance_tag ++ " get minLevel " ++ sub.index.repr) st t
      with ⟨res1, st1, t1⟩
    have hg1 := getOneLevel_preserves_goodKinds
      (sub.instance_tag ++ " get minLevel " ++ sub.index.repr) st t hg
    rw [h1] at hg1
    cases res1 with
    | error e => exact hg1
    | ok mn =>
      dsimp only
      rcases h2 : getOneLevel (sub.instance_tag ++ " get maxLevel " ++ sub.index.repr) st1 t1
        with ⟨res2, st2, t2⟩
      have hg2 := getOneLevel_preserves_goodKinds
        (sub.instance_tag ++ " get maxLevel " ++ sub.index.repr) st1 t1 hg1
      rw [h2] at hg2
      cases res2 <;> exact hg2

theorem variableTypeFor_of_valid (sub : Subscription) (hv : sub.validAttribute = true) :
    variableTypeFor sub.attr = "bool" ∨ variableTypeFor sub.attr = "float" := by
  unfold Subscription.validAttribute at hv
  simp only [Bool.or_eq_true, beq_iff_eq] at hv
  rcases hv with h | h <;> simp [variableTypeFor, h]

theorem subscribe_preserves_goodKinds (sub : Subscription) (st : CState) (t : Transport)
    (hv : sub.validAttribute = true) (hg : goodKinds st) :
    goodKinds (subscribe sub st t).2.1 := by
  have hvt := variableTypeFor_of_valid sub hv
  unfold subscribe
  split
  · exact hg
  rcases hw : writeAndRead t (subscribeCommand sub) with ⟨res0, t1⟩
  cases res0 with
  | error e => exact hg
  | ok fr0 =>
    dsimp only
    rcases hb : (if pyStrip fr0 = "" then telnetReadline t1 else (Except.ok fr0, t1))
      with ⟨res1, t2⟩
    cases res1 with
    | error e => exact hg
    | ok fr1 =>
      dsimp only
      split
      · exact hg
      split
      · exact hg
      rcases hd1 : (if (lookupSub st.subscriptions (subscriptionIdentifier sub)).isSome = true
                    then drainPush1 (t2.stream.length + 1) (pyStrip fr1) st t2
                    else (Except.ok (pyStrip fr1), st, t2)) with ⟨res2, st3, t3⟩
      have hg3 : goodKinds st3 := by
        by_cases hcond : (lookupSub st.subscriptions (subscriptionIdentifier sub)).isSome = true
        · rw [if_pos hcond] at hd1
          have hpres := drainPush1_preserves_goodKinds (t2.stream.length + 1)
            (pyStrip fr1) st t2 hg
          rw [hd1] at hpres
          exact hpres
        · rw [if_neg hcond] at hd1
          cases hd1
          exact hg
      cases res2 with
      | error e => exact hg3
      | ok first2 =>
        dsimp only
        rcases hr2 : telnetReadline t3 with ⟨res3, t4⟩
        cases res3 with
        | error e => exact hg3
        | ok sr0 =>
          dsimp only
          rcases hd2 : (if (lookupSub st3.subscriptions (subscriptionIdentifier sub)).isSome
                            = true
                        then drainPush2 (t4.stream.length + 1) first2 (pyStrip sr0) st3 t4
                        else (Except.ok (first2, pyStrip sr0), st3, t4)) with ⟨res4, st4, t5⟩
          have hg4 : goodKinds st4 := by
            by_cases hcond :
                (lookupSub st3.subscriptions (subscriptionIdentifier sub)).isSome = true
            · rw [if_pos hcond] at hd2
              have hpres := drainPush2_preserves_goodKinds (t4.stream.length + 1)
                first2 (pyStrip sr0) st3 t4 hg3
              rw [hd2] at hpres
              exact hpres
            · rw [if_neg hcond] at hd2
              cases hd2
              exact hg3
          cases res4 with
          | error e => exact hg4
          | ok pr =>
            rcases pr with ⟨first3, second3⟩
            dsimp only
            split
            · split
              · exact hg4
              rename_i tok2 htok2
              split
              · exact hg4
              rename_i ov hov
              rcases hr3 : telnetReadline t5 with ⟨res5, t6⟩
              cases res5 with
              | error e => exact hg4
              | ok bl =>
                dsimp only
                rcases hp5 : process_tesira_response st4 bl with ⟨res6, st5⟩
                have hg5 := process_preserves_goodKinds st4 bl hg4
                rw [hp5] at hg5
                cases res6 with
                | error e => exact hg5
                | ok u =>
                  dsimp only
                  split
                  · rename_i e st6 t7 heq
                    by_cases hl : sub.attr = "level"
                    · rw [if_pos hl] at heq
                      rcases hgm : get_min_max_levels sub st5 t6 with ⟨res8, st8, t8⟩
                      rw [hgm] at heq
                      have hpres := get_min_max_levels_preserves_goodKinds sub st5 t6 hg5
                      rw [hgm] at hpres
                      cases res8 with
                      | error e8 => dsimp only at heq; cases heq; exact hpres
                      | ok mm => dsimp only at heq; exact absurd heq (by simp)
                    · rw [if_neg hl] at heq
                      exact absurd heq (by simp)
                  · rename_i other_items st6 t7 heq
                    have hg6 : goodKinds st6 := by
                      by_cases hl : sub.attr = "level"
                      · rw [if_pos hl] at heq
                        rcases hgm : get_min_max_levels sub st5 t6 with ⟨res8, st8, t8⟩
                        rw [hgm] at heq
                        have hpres := get_min_max_levels_preserves_goodKinds sub st5 t6 hg5
                        rw [hgm] at hpres
                        cases res8 with
                        | error e8 => dsimp only at heq; exact absurd heq (by simp)
                        | ok mm => dsimp only at heq; cases heq; exact hpres
                      · rw [if_neg hl] at heq
                        cases heq
                        exact hg5
                    split
                    · exact hg6
                    rename_i vv hvv
                    intro k e hle
                    rcases lookupSub_updateSub_cases _ _ _ _ _ hle with he | he
                    · subst he
                      exact hvt
                    · exact hg6 k e he
            · rcases hr3 : telnetReadline t5 with ⟨res5, t6⟩
              cases res5 with
              | error e => exact hg4
              | ok bl =>
                dsimp only
                rcases hp5 : process_tesira_response st4 bl with ⟨res6, st5⟩
                have hg5 := process_preserves_goodKinds st4 bl hg4
                rw [hp5] at hg5
                cases res6 <;> exact hg5

/-- C10: for every configured subscription that passes the pydantic
`Literal["mute", "level"]` validation, the stored value kind chosen by
`subscribe` is `bool` or `float` (the opaque-string fallback of the
`match` is unreachable), and `subscribe` preserves the invariant that every
Attribute State record in the table carries value kind `bool` or `float` —
so every record created from a validated configuration does. -/
theorem validated_attribute_value_kinds :
    ∀ (sub : Subscription) (st : CState) (t : Transport),
      sub.validAttribute = true → goodKinds st →
      (variableTypeFor sub.attr = "bool" ∨ variableTypeFor sub.attr = "float")
      ∧ goodKinds (subscribe sub st t).2.1 :=
  fun sub st t hv hg =>
    ⟨variableTypeFor_of_valid sub hv, subscribe_preserves_goodKinds sub st t hv hg⟩

/-- Witness for `validated_attribute_value_kinds`: a fresh `mute`
subscription against the empty table, whose resulting table verifiably
satisfies the invariant. -/
theorem validated_attribute_value_kinds_witness :
    (variableTypeFor mixerMuteSub.attr = "bool"
      ∨ variableTypeFor mixerMuteSub.attr = "float")
    ∧ goodKinds (subscribe mixerMuteSub emptyState
        { isOpen := true, stream := ["x y \"value\":true", "+OK", ""], writes := [] }).2.1 :=
  validated_attribute_value_kinds mixerMuteSub emptyState
    { isOpen := true, stream := ["x y \"value\":true", "+OK", ""], writes := [] }
    (by decide)
    (by intro k e hle; simp [emptyState, lookupSub] at hle)

/-! ## C3 — identifier derivation and configuration-time deduplication

The derived identifier `f"{instance_tag}_{attribute}_{index}"` is proved
injective on the triple (instance_tag, attribute, index) for validated
attributes and positive indices.  The proof needs three facts about the
decimal representation `Nat.repr`: its characters are digits, it is
nonempty, and it is injective. -/

/-- Numeric value of a decimal digit character. -/
def charToDigit (c : Char) : Nat := c.toNat - 48

/-- Value of a decimal digit string. -/
def digitsVal (l : List Char) : Nat := l.foldl (fun a c => 10 * a + charToDigit c) 0

theorem digitChar_isDigit {m : Nat} (hm : m < 10) : (Nat.digitChar m).isDigit = true := by
  interval_cases m <;> decide

theorem charToDigit_digitChar {m : Nat} (hm : m < 10) :
    charToDigit (Nat.digitChar m) = m := by
  interval_cases m <;> decide

theorem toDigitsCore_append :
    ∀ (fuel n : Nat) (acc : List Char),
      Nat.toDigitsCore 10 fuel n acc = Nat.toDigitsCore 10 fuel n [] ++ acc
  | 0, n, acc => rfl
  | fuel + 1, n, acc => by
    simp only [Nat.toDigitsCore]
    by_cases h : n / 10 = 0
    · simp [h]
    · simp only [h, if_false]
      rw [toDigitsCore_append fuel (n / 10) (Nat.digitChar (n % 10) :: acc),
          toDigitsCore_append fuel (n / 10) [Nat.digitChar (n % 10)]]
      simp

theorem toDigitsCore_all_digits :
    ∀ (fuel n : Nat) (acc : List Char), (∀ c ∈ acc, c.isDigit = true) →
      ∀ c ∈ Nat.toDigitsCore 10 fuel n acc, c.isDigit = true
  | 0, n, acc, hacc => hacc
  | fuel + 1, n, acc, hacc => by
    simp only [Nat.toDigitsCore]
    by_cases h : n / 10 = 0
    · simp only [h, if_true]
      intro c hc
      rcases List.mem_cons.mp hc with hc | hc
      · rw [hc]; exact digitChar_isDigit (Nat.mod_lt _ (by decide))
      · exact hacc c hc
    · simp only [h, if_false]
      refine toDigitsCore_all_digits fuel (n / 10) _ ?_
      intro c hc
      rcases List.mem_cons.mp hc with hc | hc
      · rw [hc]; exact digitChar_isDigit (Nat.mod_lt _ (by decide))
      · exact hacc c hc

theorem toDigitsCore_ne_nil :
    ∀ (fuel n : Nat) (acc : List Char), acc ≠ [] → Nat.toDigitsCore 10 fuel n acc ≠ []
  | 0, n, acc, h => h
  | fuel + 1, n, acc, h => by
    simp only [Nat.toDigitsCore]
    by_cases hd : n / 10 = 0
    · simp [hd]
    · simp only [hd, if_false]
      exact toDigitsCore_ne_nil fuel (n / 10) _ (by simp)

theorem toDigitsCore_val :
    ∀ (fuel n : Nat), n < fuel → digitsVal (Nat.toDigitsCore 10 fuel n []) = n := by
  intro fuel
  induction fuel with
  | zero => intro n hn; omega
  | succ fuel ih =>
    intro n hn
    simp only [Nat.toDigitsCore]
    by_cases h : n / 10 = 0
    · simp only [h, if_true]
      have h10 : n < 10 := by omega
      simp only [digitsVal, List.foldl_cons, List.foldl_nil, Nat.mul_zero, Nat.zero_add]
      rw [charToDigit_digitChar (Nat.mod_lt _ (by decide))]
      omega
    · simp only [h, if_false]
      rw [toDigitsCore_append fuel (n / 10) [Nat.digitChar (n % 10)]]
      have hlt : n / 10 < fuel := by
        have : n / 10 < n := Nat.div_lt_self (by omega) (by decide)
        omega
      simp only [digitsVal, List.foldl_append, List.foldl_cons, List.foldl_nil]
      have hval := ih (n / 10) hlt
      simp only [digitsVal] at hval
      rw [hval, charToDigit_digitChar (Nat.mod_lt _ (by decide))]
      omega

theorem natRepr_data (n : Nat) : (Nat.repr n).data = Nat.toDigits 10 n := rfl

theorem natRepr_data_all_digits (n : Nat) : ∀ c ∈ (Nat.repr n).data, c.isDigit = true := by
  rw [natRepr_data]
  exact toDigitsCore_all_digits (n + 1) n [] (by intro c hc; cases hc)

theorem natRepr_data_ne_nil (n : Nat) : (Nat.repr n).data ≠ [] := by
  rw [natRepr_data]
  unfold Nat.toDigits
  simp only [Nat.toDigitsCore]
  by_cases h : n / 10 = 0
  · simp [h]
  · simp only [h, if_false]
    exact toDigitsCore_ne_nil n (n / 10) _ (by simp)

theorem natRepr_data_inj {m n : Nat} (h : (Nat.repr m).data = (Nat.repr n).data) : m = n := by
  rw [natRepr_data, natRepr_data] at h
  have hm := toDigitsCore_val (m + 1) m (Nat.lt_succ_self m)
  have hn := toDigitsCore_val (n + 1) n (Nat.lt_succ_self n)
  unfold Nat.toDigits at h
  rw [← hm, ← hn, h]

/-- Splitting at the first separator: two decompositions of a list around an
underscore agree when neither left part contains an underscore. -/
theorem append_underscore_inj (x1 : List Char) :
    ∀ (x2 r1 r2 : List Char), '_' ∉ x1 → '_' ∉ x2 →
      x1 ++ '_' :: r1 = x2 ++ '_' :: r2 → x1 = x2 ∧ r1 = r2 := by
  induction x1 with
  | nil =>
    intro x2 r1 r2 h1 h2 h
    cases x2 with
    | nil => simpa using h
    | cons c t =>
      simp only [List.nil_append, List.cons_append, List.cons.injEq] at h
      refine absurd ?_ h2
      rw [← h.1]
      exact List.mem_cons_self '_' t
  | cons c t ih =>
    intro x2 r1 r2 h1 h2 h
    cases x2 with
    | nil =>
      simp only [List.cons_append, List.nil_append, List.cons.injEq] at h
      refine absurd ?_ h1
      rw [h.1]
      exact List.mem_cons_self '_' t
    | cons c2 t2 =>
      simp only [List.cons_append, List.cons.injEq] at h
      obtain ⟨hc, ht⟩ := h
      obtain ⟨he1, he2⟩ := ih t2 r1 r2
        (fun hm => h1 (List.mem_cons_of_mem _ hm))
        (fun hm => h2 (List.mem_cons_of_mem _ hm)) ht
      exact ⟨by rw [hc, he1], he2⟩

/-- Splitting at the last separator: two decompositions of a list around an
underscore agree when neither right part contains an underscore. -/
theorem append_underscore_last_inj (r1 r2 d1 d2 : List Char)
    (h1 : '_' ∉ d1) (h2 : '_' ∉ d2)
    (h : r1 ++ '_' :: d1 = r2 ++ '_' :: d2) : r1 = r2 ∧ d1 = d2 := by
  have hr := congrArg List.reverse h
  simp only [List.reverse_append, List.reverse_cons, List.append_assoc,
    List.singleton_append] at hr
  obtain ⟨ha, hb⟩ := append_underscore_inj d1.reverse d2.reverse r1.reverse r2.reverse
    (by simpa using h1) (by simpa using h2) hr
  exact ⟨List.reverse_injective hb, List.reverse_injective ha⟩

/-- On positive integers, `Int.repr` is the decimal `Nat.repr` of `toNat`. -/
theorem intRepr_pos (i : Int) (hi : 0 < i) : i.repr = Nat.repr i.toNat := by
  cases i with
  | ofNat m => rfl
  | negSucc m => exact absurd hi (by have := Int.negSucc_lt_zero m; omega)

theorem intRepr_pos_no_underscore (i : Int) (hi : 0 < i) : '_' ∉ (i.repr).data := by
  rw [intRepr_pos i hi]
  intro hm
  have := natRepr_data_all_digits i.toNat '_' hm
  simp at this

/-- The derived identifier determines the triple (instance_tag, attribute,
index) for validated attributes and positive indices: the digits contain no
underscore, so the split at the last underscore recovers the index, and the
validated attribute contains no underscore, so the split at the now-last
underscore recovers attribute and instance tag. -/
theorem subscriptionIdentifier_triple_inj (s1 s2 : Subscription)
    (h1 : s1.validAttribute = true) (h2 : s2.validAttribute = true)
    (hp1 : 0 < s1.index) (hp2 : 0 < s2.index)
    (h : subscriptionIdentifier s1 = subscriptionIdentifier s2) :
    s1.instance_tag = s2.instance_tag ∧ s1.attr = s2.attr ∧ s1.index = s2.index := by
  have hu : ("_" : String).data = ['_'] := rfl
  have hn1 : '_' ∉ (s1.index.repr).data := intRepr_pos_no_underscore _ hp1
  have hn2 : '_' ∉ (s2.index.repr).data := intRepr_pos_no_underscore _ hp2
  have hna1 : '_' ∉ s1.attr.data := by
    unfold Subscription.validAttribute at h1
    simp only [Bool.or_eq_true, beq_iff_eq] at h1
    rcases h1 with ha | ha <;> rw [ha] <;> decide
  have hna2 : '_' ∉ s2.attr.data := by
    unfold Subscription.validAttribute at h2
    simp only [Bool.or_eq_true, beq_iff_eq] at h2
    rcases h2 with ha | ha <;> rw [ha] <;> decide
  have hd := congrArg String.data h
  simp only [subscriptionIdentifier, String.data_append, hu] at hd
  have hsplit := append_underscore_last_inj
    (s1.instance_tag.data ++ '_' :: s1.attr.data)
    (s2.instance_tag.data ++ '_' :: s2.attr.data)
    (s1.index.repr).data (s2.index.repr).data hn1 hn2
    (by simpa only [List.append_assoc, List.singleton_append, List.cons_append] using hd)
  have hta := append_underscore_last_inj s1.instance_tag.data s2.instance_tag.data
    s1.attr.data s2.attr.data hna1 hna2 hsplit.1
  refine ⟨String.ext hta.1, String.ext hta.2, ?_⟩
  have hidx := hsplit.2
  rw [intRepr_pos _ hp1, intRepr_pos _ hp2] at hidx
  have := natRepr_data_inj hidx
  omega

/-- Two configured subscriptions sharing the (instance_tag, attribute,
index) triple but differing in display name. -/
def dupSubA : Subscription :=
  { instance_tag := "Mixer1", attr := "mute", index := 1,
    name := "Front mute", device_name := "Mixer" }

/-- See `dupSubA`: same triple, different `name`. -/
def dupSubB : Subscription :=
  { instance_tag := "Mixer1", attr := "mute", index := 1,
    name := "Back mute", device_name := "Mixer" }

/-- C3 counterexample: two distinct configured Subscriptions with the same
(instance_tag, attribute, index) triple but different names are NOT rejected
at configuration time — pydantic set construction deduplicates by the full
five-field structural identity, so both survive validation (and their
derived identifiers collide). -/
theorem duplicate_triple_not_rejected :
    configDedup [dupSubA, dupSubB] = [dupSubA, dupSubB]
    ∧ dupSubA.instance_tag = dupSubB.instance_tag
    ∧ dupSubA.attr = dupSubB.attr
    ∧ dupSubA.index = dupSubB.index
    ∧ dupSubA.name ≠ dupSubB.name
    ∧ subscriptionIdentifier dupSubA = subscriptionIdentifier dupSubB := by
  refine ⟨by decide, by decide, by decide, by decide, by decide, by decide⟩

/-- C3 amended: the derived identifier `{instance_tag}_{attribute}_{index}`
differs whenever any of (instance_tag, attribute, index) differs, for
attributes in {mute, level} and positive indices; but identical triples are
NOT rejected at configuration time: configuration deduplicates only by the
full five-field structural identity, so two subscriptions sharing a triple
while differing in name both survive (with colliding identifiers). -/
theorem identifier_injective_config_no_rejection :
    (∀ s1 s2 : Subscription, s1.validAttribute = true → s2.validAttribute = true →
        0 < s1.index → 0 < s2.index →
        subscriptionIdentifier s1 = subscriptionIdentifier s2 →
        s1.instance_tag = s2.instance_tag ∧ s1.attr = s2.attr ∧ s1.index = s2.index)
    ∧ configDedup [dupSubA, dupSubB] = [dupSubA, dupSubB]
    ∧ subscriptionIdentifier dupSubA = subscriptionIdentifier dupSubB
    ∧ dupSubA ≠ dupSubB :=
  ⟨subscriptionIdentifier_triple_inj, by decide, by decide, by decide⟩

/-- Witness for `identifier_injective_config_no_rejection`: the injectivity
clause applied to the two same-triple fixtures. -/
theorem identifier_injective_config_no_rejection_witness :
    dupSubA.instance_tag = dupSubB.instance_tag
    ∧ dupSubA.attr = dupSubB.attr
    ∧ dupSubA.index = dupSubB.index :=
  identifier_injective_config_no_rejection.1 dupSubA dupSubB
    (by decide) (by decide) (by decide) (by decide) (by decide)
